import Mathlib

/-
Verification of the configuration-reload pipeline of the `config` package
(src/config/config.go).  The host application (settings retrieval, dialogs,
path translation) and the filesystem are modelled as explicit parameters;
panics of the Go code (settings dialog + `os.Exit(5)` through the deferred
`recover`) are modelled as an abort value instead of a published snapshot.
Machine integers are modelled as `Int`/`Nat`, with explicit `% 2 ^ 64`
wrapping where the Go code converts through `uint64` (adaptive memory
sizing).  `float64`/`float32` values are modelled as exact rationals; the
decimal literals exercised here are exactly representable in `float32`.
-/

set_option autoImplicit false

namespace Config

/-- Host addon descriptor (the fields of `xbmc.AddonInfo` that `Reload`
copies into the configuration after path translation). -/
structure AddonInfo where
  ID : String
  Path : String
  Profile : String
  Home : String
  Xbmc : String
  TempPath : String
  Icon : String

/-- Host platform descriptor (`xbmc.Platform`). -/
structure XbmcPlatform where
  OS : String

/-- One raw host setting: the fields of `xbmc.Setting` that `Reload` reads
(`setting.Key`, `setting.Type`, `setting.Value`, `setting.Option`).
`Type` and `Option` are Lean keywords / core names, hence the longer
field names. -/
structure Setting where
  Key : String
  SettingType : String
  Value : String
  SettingOption : String

/-- A coerced native value stored in the `settings` map: Go stores
`int`, `float32`, `bool` or `string` in a `map[string]interface{}`. -/
inductive SettingValue where
  | vInt (n : Int)
  | vFloat (q : ℚ)
  | vBool (b : Bool)
  | vStr (s : String)
  deriving DecidableEq

/-- The `Configuration` struct (src/config/config.go lines 27-133);
commented-out Go fields are omitted, as in the source. -/
structure Configuration where
  DownloadPath : String
  TorrentsPath : String
  LibraryPath : String
  Info : AddonInfo
  Platform : XbmcPlatform
  Language : String
  TemporaryPath : String
  ProfilePath : String
  HomePath : String
  XbmcPath : String
  SpoofUserAgent : Int
  KeepDownloading : Int
  KeepFilesPlaying : Int
  KeepFilesFinished : Int
  DisableBgProgress : Bool
  DisableBgProgressPlayback : Bool
  ForceUseTrakt : Bool
  UseCacheSelection : Bool
  UseCacheSearch : Bool
  CacheSearchDuration : Int
  ResultsPerPage : Int
  EnableOverlayStatus : Bool
  SilentStreamStart : Bool
  ChooseStreamAuto : Bool
  ForceLinkType : Bool
  UseOriginalTitle : Bool
  AddSpecials : Bool
  ShowUnairedSeasons : Bool
  ShowUnairedEpisodes : Bool
  SmartEpisodeMatch : Bool
  DownloadStorage : Int
  AutoMemorySize : Bool
  AutoMemorySizeStrategy : Int
  MemorySize : Int
  BufferSize : Int
  UploadRateLimit : Int
  DownloadRateLimit : Int
  LimitAfterBuffering : Bool
  ConnectionsLimit : Int
  SeedTimeLimit : Int
  DisableUpload : Bool
  DisableDHT : Bool
  DisableTCP : Bool
  DisableUTP : Bool
  DisableUPNP : Bool
  EncryptionPolicy : Int
  ListenPortMin : Int
  ListenPortMax : Int
  ListenInterfaces : String
  ListenAutoDetectIP : Bool
  ListenAutoDetectPort : Bool
  Scrobble : Bool
  TraktUsername : String
  TraktToken : String
  TraktRefreshToken : String
  TraktTokenExpiry : Int
  TraktSyncFrequency : Int
  TraktSyncCollections : Bool
  TraktSyncWatchlist : Bool
  TraktSyncUserlists : Bool
  TraktSyncWatched : Bool
  TraktSyncWatchedBack : Bool
  UpdateFrequency : Int
  UpdateDelay : Int
  UpdateAutoScan : Bool
  PlayResume : Bool
  UseCloudHole : Bool
  CloudHoleKey : String
  TMDBApiKey : String
  OSDBUser : String
  OSDBPass : String
  OSDBLanguage : String
  OSDBAutoLanguage : Bool
  SortingModeMovies : Int
  SortingModeShows : Int
  ResolutionPreferenceMovies : Int
  ResolutionPreferenceShows : Int
  PercentageAdditionalSeeders : Int
  UsePublicDNS : Bool
  PublicDNSList : String
  OpennicDNSList : String
  CustomProviderTimeoutEnabled : Bool
  CustomProviderTimeout : Int
  ProxyURL : String
  ProxyType : Int
  ProxyEnabled : Bool
  ProxyHost : String
  ProxyPort : Int
  ProxyLogin : String
  ProxyPassword : String
  CompletedMove : Bool
  CompletedMoviesPath : String
  CompletedShowsPath : String

/-- `const maxMemorySize = 200 * 1024 * 1024` (line 24). -/
def maxMemorySize : Int := 200 * 1024 * 1024

/-- `proxyTypes` (lines 149-154). -/
def proxyTypes : List String := ["Socks4", "Socks5", "HTTP", "HTTPS"]

/- ## Numeric parsing (models of strconv.Atoi / strconv.ParseFloat) -/

def digitVal (ch : Char) : Option Nat :=
  if '0' ≤ ch ∧ ch ≤ '9' then some (ch.toNat - '0'.toNat) else none

def parseDigitsAux : List Char → Nat → Option Nat
  | [], acc => some acc
  | ch :: rest, acc =>
    match digitVal ch with
    | some d => parseDigitsAux rest (acc * 10 + d)
    | none => none

/-- A non-empty all-digit string parsed as a natural number, `none` otherwise. -/
def parseDigits : List Char → Option Nat
  | [] => none
  | l => parseDigitsAux l 0

def maxInt64 : Int := 2 ^ 63 - 1

def minInt64 : Int := -(2 ^ 63)

def clampInt64 (i : Int) : Int :=
  if i < minInt64 then minInt64 else if maxInt64 < i then maxInt64 else i

/-- Model of the value produced by `value, _ := strconv.Atoi(s)`: the Go code
discards the error, so a syntax error yields 0 and a range error yields the
clamped int64 bound (strconv.ParseInt's documented out-of-range result). -/
def goAtoiVal (s : String) : Int :=
  match s.toList with
  | '+' :: cs =>
    match parseDigits cs with
    | some n => clampInt64 (n : Int)
    | none => 0
  | '-' :: cs =>
    match parseDigits cs with
    | some n => clampInt64 (-(n : Int))
    | none => 0
  | cs =>
    match parseDigits cs with
    | some n => clampInt64 (n : Int)
    | none => 0

/-- Leading decimal digits of a character list, and the remainder. -/
def splitDigits : List Char → List Char × List Char
  | [] => ([], [])
  | ch :: rest =>
    if (digitVal ch).isSome then
      let p := splitDigits rest
      (ch :: p.1, p.2)
    else ([], ch :: rest)

def digitsToNat (l : List Char) : Nat :=
  l.foldl (fun a ch => a * 10 + (ch.toNat - '0'.toNat)) 0

/-- An exact decimal value `num / 10 ^ pow`: the kernel-computable carrier
of parsed float literals. -/
structure Dec where
  num : Int
  pow : Nat
  deriving DecidableEq

/-- The rational value of a decimal. -/
def Dec.toRat (d : Dec) : ℚ :=
  (d.num : ℚ) / (10 : ℚ) ^ d.pow

def decZero : Dec := ⟨0, 0⟩

/-- Decimal mantissa `digits[.digits]` (at least one digit): the combined
digit string as a natural number, the length of the fractional part, and
the remainder of the input. -/
def parseDecMantissa (l : List Char) : Option (Nat × Nat × List Char) :=
  let ip := splitDigits l
  match ip.2 with
  | '.' :: r2 =>
    let fp := splitDigits r2
    if ip.1.isEmpty ∧ fp.1.isEmpty then none
    else some (digitsToNat ip.1 * 10 ^ fp.1.length + digitsToNat fp.1, fp.1.length, fp.2)
  | _ =>
    if ip.1.isEmpty then none else some (digitsToNat ip.1, 0, ip.2)

def parseExponent : List Char → Option Int
  | '+' :: cs => (parseDigits cs).map (fun n => (n : Int))
  | '-' :: cs => (parseDigits cs).map (fun n => -(n : Int))
  | cs => (parseDigits cs).map (fun n => (n : Int))

/-- Scale a mantissa by a decimal exponent. -/
def applyExponent (num : Int) (pow : Nat) (e : Int) : Dec :=
  if 0 ≤ e then ⟨num * 10 ^ e.toNat, pow⟩ else ⟨num, pow + e.natAbs⟩

/-- Model of `strconv.ParseFloat(s, 32)` on ordinary decimal literals
(optional sign, decimal mantissa, optional decimal exponent), as an exact
decimal.  Binary rounding to float32 and the special forms (inf/NaN and
hexadecimal mantissas) are not modelled; the literals analysed here are
exactly representable. -/
def parseDec (s : String) : Option Dec :=
  let l := s.toList
  let signed : Int × List Char :=
    match l with
    | '+' :: cs => (1, cs)
    | '-' :: cs => (-1, cs)
    | _ => (1, l)
  match parseDecMantissa signed.2 with
  | none => none
  | some m =>
    match m.2.2 with
    | [] => some ⟨signed.1 * (m.1 : Int), m.2.1⟩
    | 'e' :: cs => (parseExponent cs).map (applyExponent (signed.1 * (m.1 : Int)) m.2.1)
    | 'E' :: cs => (parseExponent cs).map (applyExponent (signed.1 * (m.1 : Int)) m.2.1)
    | _ => none

/-- The rational value of `floated, _ := strconv.ParseFloat(s, 32)`: Go
discards the error, so an unparsable string contributes 0. -/
def goParseFloatVal (s : String) : ℚ :=
  ((parseDec s).getD decZero).toRat

/-- Go conversion `int(f)` of a float: truncation toward zero. -/
def truncDec (d : Dec) : Int :=
  d.num.tdiv (10 ^ d.pow)

/-- A decimal is a positive rational exactly when its numerator is positive
(the denominator `10 ^ pow` is always positive), so the Go comparison
`valueFloat > 0` is the numerator sign test. -/
theorem Dec.toRat_pos (d : Dec) : 0 < d.toRat ↔ 0 < d.num := by
  unfold Dec.toRat
  have h10 : (0 : ℚ) < 10 ^ d.pow := by positivity
  rw [lt_div_iff₀ h10]
  simp

/- ## Settings coercion (Reload, lines 273-305) -/

/-- One arm of the `switch setting.Type` coercion loop. -/
def coerceSetting (s : Setting) : SettingValue :=
  if s.SettingType == "enum" || s.SettingType == "number" then
    .vInt (goAtoiVal s.Value)
  else if s.SettingType == "slider" then
    let valueInt : Int :=
      if s.SettingOption == "percent" || s.SettingOption == "int" then
        truncDec ((parseDec s.Value).getD decZero)
      else 0
    let valueFloat : Dec :=
      if s.SettingOption == "float" then (parseDec s.Value).getD decZero else decZero
    if 0 < valueFloat.num then .vFloat valueFloat.toRat else .vInt valueInt
  else if s.SettingType == "bool" then
    .vBool (s.Value == "true")
  else
    .vStr s.Value

/-- The `settings` map (`map[string]interface{}`). -/
def TypedSettings : Type := String → Option SettingValue

def emptySettings : TypedSettings := fun _ => none

/-- Go map assignment `settings[k] = v` (later assignments overwrite). -/
def setSetting (m : TypedSettings) (k : String) (v : SettingValue) : TypedSettings :=
  fun q => if q == k then some v else m q

/-- The coercion loop over `xbmc.GetAllSettings()`. -/
def coerceAll (l : List Setting) : TypedSettings :=
  l.foldl (fun m s => setSetting m s.Key (coerceSetting s)) emptySettings

/-- Go type assertion `settings[k].(int)`: `none` models the panic on a
missing key or non-int dynamic type. -/
def getInt (m : TypedSettings) (k : String) : Option Int :=
  match m k with
  | some (.vInt n) => some n
  | _ => none

/-- Go type assertion `settings[k].(bool)`. -/
def getBool (m : TypedSettings) (k : String) : Option Bool :=
  match m k with
  | some (.vBool b) => some b
  | _ => none

/-- Go type assertion `settings[k].(string)`. -/
def getStr (m : TypedSettings) (k : String) : Option String :=
  match m k with
  | some (.vStr s) => some s
  | _ => none

/- ## Path validation (Reload, lines 246-271) -/

/-- The path-validation stage of `Reload`: sentinel check and
`IsWritablePath` on the download path, then defaulting or checking of the
library path.  `check` abstracts `IsWritablePath` over the filesystem
(`some e` = failure with message `e`).  Besides the result we record the
trace of paths actually passed to the writability check, to capture that a
defaulted library path is not re-checked. -/
def validatePaths (downloadPath libraryPath : String) (check : String → Option String) :
    Except String (String × String) × List String :=
  if downloadPath == "." then (.error "LOCALIZE[30113]", [])
  else
    match check downloadPath with
    | some e => (.error e, [downloadPath])
    | none =>
      if libraryPath == "." then (.ok (downloadPath, downloadPath), [downloadPath])
      else
        match check libraryPath with
        | some e => (.error e, [downloadPath, libraryPath])
        | none => (.ok (downloadPath, libraryPath), [downloadPath, libraryPath])

/- ## Configuration construction (Reload, lines 307-411) -/

/-- The dynamic type expected by each `settings[k].(T)` assertion. -/
inductive SettingKind where
  | kInt
  | kBool
  | kStr
  deriving DecidableEq

/-- Whether `settings[k].(T)` would succeed for the given expected type. -/
def hasKind (m : TypedSettings) (k : String) : SettingKind → Bool
  | .kInt => (getInt m k).isSome
  | .kBool => (getBool m k).isSome
  | .kStr => (getStr m k).isSome

/-- Every `settings[k].(T)` assertion performed by the `Configuration{...}`
literal (lines 307-411), in source order (split in three parts to keep the
list literals small). -/
def requiredKeysA : List (String × SettingKind) := [
  ("download_storage", .kInt),
  ("auto_memory_size", .kBool),
  ("auto_memory_size_strategy", .kInt),
  ("memory_size", .kInt),
  ("buffer_size", .kInt),
  ("max_upload_rate", .kInt),
  ("max_download_rate", .kInt),
  ("spoof_user_agent", .kInt),
  ("limit_after_buffering", .kBool),
  ("keep_downloading", .kInt),
  ("keep_files_playing", .kInt),
  ("keep_files_finished", .kInt),
  ("disable_bg_progress", .kBool),
  ("disable_bg_progress_playback", .kBool),
  ("force_use_trakt", .kBool),
  ("use_cache_selection", .kBool),
  ("use_cache_search", .kBool),
  ("cache_search_duration", .kInt),
  ("results_per_page", .kInt),
  ("enable_overlay_status", .kBool),
  ("silent_stream_start", .kBool),
  ("choose_stream_auto", .kBool),
  ("force_link_type", .kBool),
  ("use_original_title", .kBool),
  ("add_specials", .kBool),
  ("unaired_seasons", .kBool),
  ("unaired_episodes", .kBool),
  ("smart_episode_match", .kBool)]

def requiredKeysB : List (String × SettingKind) := [
  ("seed_time_limit", .kInt),
  ("disable_upload", .kBool),
  ("disable_dht", .kBool),
  ("disable_tcp", .kBool),
  ("disable_utp", .kBool),
  ("disable_upnp", .kBool),
  ("encryption_policy", .kInt),
  ("listen_port_min", .kInt),
  ("listen_port_max", .kInt),
  ("listen_interfaces", .kStr),
  ("listen_autodetect_ip", .kBool),
  ("listen_autodetect_port", .kBool),
  ("connections_limit", .kInt),
  ("trakt_scrobble", .kBool),
  ("trakt_username", .kStr),
  ("trakt_token", .kStr),
  ("trakt_refresh_token", .kStr),
  ("trakt_token_expiry", .kInt),
  ("trakt_sync", .kInt),
  ("trakt_sync_collections", .kBool),
  ("trakt_sync_watchlist", .kBool),
  ("trakt_sync_userlists", .kBool),
  ("trakt_sync_watched", .kBool),
  ("trakt_sync_watchedback", .kBool),
  ("library_update_frequency", .kInt),
  ("library_update_delay", .kInt),
  ("library_auto_scan", .kBool),
  ("play_resume", .kBool)]

def requiredKeysC : List (String × SettingKind) := [
  ("use_cloudhole", .kBool),
  ("cloudhole_key", .kStr),
  ("tmdb_api_key", .kStr),
  ("osdb_user", .kStr),
  ("osdb_pass", .kStr),
  ("osdb_language", .kStr),
  ("osdb_auto_language", .kBool),
  ("sorting_mode_movies", .kInt),
  ("sorting_mode_shows", .kInt),
  ("resolution_preference_movies", .kInt),
  ("resolution_preference_shows", .kInt),
  ("percentage_additional_seeders", .kInt),
  ("use_public_dns", .kBool),
  ("public_dns_list", .kStr),
  ("opennic_dns_list", .kStr),
  ("custom_provider_timeout_enabled", .kBool),
  ("custom_provider_timeout", .kInt),
  ("proxy_type", .kInt),
  ("proxy_enabled", .kBool),
  ("proxy_host", .kStr),
  ("proxy_port", .kInt),
  ("proxy_login", .kStr),
  ("proxy_password", .kStr),
  ("completed_move", .kBool),
  ("completed_movies_path", .kStr),
  ("completed_shows_path", .kStr)]

def requiredKeys : List (String × SettingKind) :=
  requiredKeysA ++ requiredKeysB ++ requiredKeysC

/-- All type assertions of the construction succeed. -/
def requiredOk (m : TypedSettings) : Bool :=
  requiredKeys.all (fun p => hasKind m p.1 p.2)

/-- `settings[k].(int)` under the guarantee that it succeeds. -/
def getIntD (m : TypedSettings) (k : String) : Int :=
  (getInt m k).getD 0

def getBoolD (m : TypedSettings) (k : String) : Bool :=
  (getBool m k).getD false

def getStrD (m : TypedSettings) (k : String) : String :=
  (getStr m k).getD ""

/-- The `newConfig := Configuration{...}` literal (lines 307-411).  Every
`settings[k].(T)` assertion must succeed, otherwise the construction panics
(`none`); when all succeed, each field receives its asserted value. -/
def buildConfig (downloadPath libraryPath : String) (info : AddonInfo)
    (platform : XbmcPlatform) (language : String) (s : TypedSettings) :
    Option Configuration :=
  if requiredOk s then
    some {
      DownloadPath := downloadPath
      TorrentsPath := downloadPath ++ "/Torrents"
      LibraryPath := libraryPath
      Info := info
      Platform := platform
      Language := language
      TemporaryPath := info.TempPath
      ProfilePath := info.Profile
      HomePath := info.Home
      XbmcPath := info.Xbmc
      SpoofUserAgent := getIntD s "spoof_user_agent"
      KeepDownloading := getIntD s "keep_downloading"
      KeepFilesPlaying := getIntD s "keep_files_playing"
      KeepFilesFinished := getIntD s "keep_files_finished"
      DisableBgProgress := getBoolD s "disable_bg_progress"
      DisableBgProgressPlayback := getBoolD s "disable_bg_progress_playback"
      ForceUseTrakt := getBoolD s "force_use_trakt"
      UseCacheSelection := getBoolD s "use_cache_selection"
      UseCacheSearch := getBoolD s "use_cache_search"
      CacheSearchDuration := getIntD s "cache_search_duration"
      ResultsPerPage := getIntD s "results_per_page"
      EnableOverlayStatus := getBoolD s "enable_overlay_status"
      SilentStreamStart := getBoolD s "silent_stream_start"
      ChooseStreamAuto := getBoolD s "choose_stream_auto"
      ForceLinkType := getBoolD s "force_link_type"
      UseOriginalTitle := getBoolD s "use_original_title"
      AddSpecials := getBoolD s "add_specials"
      ShowUnairedSeasons := getBoolD s "unaired_seasons"
      ShowUnairedEpisodes := getBoolD s "unaired_episodes"
      SmartEpisodeMatch := getBoolD s "smart_episode_match"
      DownloadStorage := getIntD s "download_storage"
      AutoMemorySize := getBoolD s "auto_memory_size"
      AutoMemorySizeStrategy := getIntD s "auto_memory_size_strategy"
      MemorySize := getIntD s "memory_size" * 1024 * 1024
      BufferSize := getIntD s "buffer_size" * 1024 * 1024
      UploadRateLimit := getIntD s "max_upload_rate" * 1024
      DownloadRateLimit := getIntD s "max_download_rate" * 1024
      LimitAfterBuffering := getBoolD s "limit_after_buffering"
      ConnectionsLimit := getIntD s "connections_limit"
      SeedTimeLimit := getIntD s "seed_time_limit"
      DisableUpload := getBoolD s "disable_upload"
      DisableDHT := getBoolD s "disable_dht"
      DisableTCP := getBoolD s "disable_tcp"
      DisableUTP := getBoolD s "disable_utp"
      DisableUPNP := getBoolD s "disable_upnp"
      EncryptionPolicy := getIntD s "encryption_policy"
      ListenPortMin := getIntD s "listen_port_min"
      ListenPortMax := getIntD s "listen_port_max"
      ListenInterfaces := getStrD s "listen_interfaces"
      ListenAutoDetectIP := getBoolD s "listen_autodetect_ip"
      ListenAutoDetectPort := getBoolD s "listen_autodetect_port"
      Scrobble := getBoolD s "trakt_scrobble"
      TraktUsername := getStrD s "trakt_username"
      TraktToken := getStrD s "trakt_token"
      TraktRefreshToken := getStrD s "trakt_refresh_token"
      TraktTokenExpiry := getIntD s "trakt_token_expiry"
      TraktSyncFrequency := getIntD s "trakt_sync"
      TraktSyncCollections := getBoolD s "trakt_sync_collections"
      TraktSyncWatchlist := getBoolD s "trakt_sync_watchlist"
      TraktSyncUserlists := getBoolD s "trakt_sync_userlists"
      TraktSyncWatched := getBoolD s "trakt_sync_watched"
      TraktSyncWatchedBack := getBoolD s "trakt_sync_watchedback"
      UpdateFrequency := getIntD s "library_update_frequency"
      UpdateDelay := getIntD s "library_update_delay"
      UpdateAutoScan := getBoolD s "library_auto_scan"
      PlayResume := getBoolD s "play_resume"
      UseCloudHole := getBoolD s "use_cloudhole"
      CloudHoleKey := getStrD s "cloudhole_key"
      TMDBApiKey := getStrD s "tmdb_api_key"
      OSDBUser := getStrD s "osdb_user"
      OSDBPass := getStrD s "osdb_pass"
      OSDBLanguage := getStrD s "osdb_language"
      OSDBAutoLanguage := getBoolD s "osdb_auto_language"
      SortingModeMovies := getIntD s "sorting_mode_movies"
      SortingModeShows := getIntD s "sorting_mode_shows"
      ResolutionPreferenceMovies := getIntD s "resolution_preference_movies"
      ResolutionPreferenceShows := getIntD s "resolution_preference_shows"
      PercentageAdditionalSeeders := getIntD s "percentage_additional_seeders"
      UsePublicDNS := getBoolD s "use_public_dns"
      PublicDNSList := getStrD s "public_dns_list"
      OpennicDNSList := getStrD s "opennic_dns_list"
      CustomProviderTimeoutEnabled := getBoolD s "custom_provider_timeout_enabled"
      CustomProviderTimeout := getIntD s "custom_provider_timeout"
      ProxyURL := ""
      ProxyType := getIntD s "proxy_type"
      ProxyEnabled := getBoolD s "proxy_enabled"
      ProxyHost := getStrD s "proxy_host"
      ProxyPort := getIntD s "proxy_port"
      ProxyLogin := getStrD s "proxy_login"
      ProxyPassword := getStrD s "proxy_password"
      CompletedMove := getBoolD s "completed_move"
      CompletedMoviesPath := getStrD s "completed_movies_path"
      CompletedShowsPath := getStrD s "completed_shows_path"
    }
  else none


/- ## Derived values (Reload, lines 413-479) -/

def U64 : Nat := 2 ^ 64

/-- Go conversion `uint64(i)` of an `int` (two's complement wrap). -/
def uint64OfInt (i : Int) : Nat :=
  (i % (U64 : Int)).toNat

/-- Go conversion `int(n)` of a `uint64` (two's complement wrap). -/
def intOfUint64 (n : Nat) : Int :=
  if n < 2 ^ 63 then (n : Int) else (n : Int) - (U64 : Int)

/-- Memory-storage overrides and adaptive memory sizing (lines 415-442).
`totalMemory` is the `memory.TotalMemory()` reading (a `uint64`). -/
def deriveStorage (c : Configuration) (totalMemory : Nat) : Configuration :=
  if c.DownloadStorage == 1 then
    let c := { c with CompletedMove := false, KeepDownloading := 2,
                      KeepFilesFinished := 2, KeepFilesPlaying := 2 }
    if c.AutoMemorySize then
      if c.AutoMemorySizeStrategy == 0 then
        { c with MemorySize := 40 * 1024 * 1024 }
      else
        let pct : Nat := uint64OfInt (5 + 5 * (c.AutoMemorySizeStrategy - 1))
        let mem : Nat := totalMemory % U64 / 100 * pct % U64
        let c := if 0 < mem then { c with MemorySize := intOfUint64 mem } else c
        if maxMemorySize < c.MemorySize then { c with MemorySize := maxMemorySize } else c
    else c
  else c

/-- Default Trakt sync frequency (lines 445-447). -/
def deriveTrakt (c : Configuration) : Configuration :=
  if c.TraktToken != "" && c.TraktSyncFrequency == 0 then
    { c with TraktSyncFrequency := 6 }
  else c

/-- OSDB language setup (lines 450-452). -/
def deriveOSDB (c : Configuration) : Configuration :=
  if c.OSDBAutoLanguage || c.OSDBLanguage == "" then
    { c with OSDBLanguage := c.Language }
  else c

/-- Go slice indexing `xs[i]` with an `int` index: `none` models the
index-out-of-range panic. -/
def goIndex (xs : List String) (i : Int) : Option String :=
  if 0 ≤ i then xs.get? i.toNat else none

/-- Proxy URL assembly (lines 454-462).  `none` models the panic on an
out-of-range `ProxyType`. -/
def deriveProxy (c : Configuration) : Option Configuration :=
  if c.ProxyEnabled && c.ProxyHost != "" then
    match goIndex proxyTypes c.ProxyType with
    | none => none
    | some scheme =>
      let url := scheme ++ "://"
      let url :=
        if c.ProxyLogin != "" || c.ProxyPassword != "" then
          url ++ c.ProxyLogin ++ ":" ++ c.ProxyPassword ++ "@"
        else url
      some { c with ProxyURL := url ++ c.ProxyHost ++ ":" ++ toString c.ProxyPort }
  else some c

/-- `strings.HasPrefix(s, pre)` as a list-level character test. -/
def strStarts (s pre : String) : Bool :=
  List.isPrefixOf pre.toList s.toList

/-- `strings.Replace(s, " ", "", -1)`: remove every space character. -/
def removeSpaces (s : String) : String :=
  String.mk (s.toList.filter (fun ch => ch != ' '))

/-- `strings.Split` for a one-character separator. -/
def splitOnComma : List Char → List (List Char)
  | [] => [[]]
  | ch :: rest =>
    if ch == ',' then [] :: splitOnComma rest
    else
      match splitOnComma rest with
      | [] => [[ch]]
      | h :: t => (ch :: h) :: t

/-- `strings.Split(s, ",")`. -/
def goSplitComma (s : String) : List String :=
  (splitOnComma s.toList).map String.mk

/-- DNS-resolver rebuild (lines 464-473).  `rpub`/`ropen` are the current
address lists of the two process-wide resolvers; the result carries the
updated configuration and the (possibly rebuilt) resolver lists. -/
def deriveDNS (c : Configuration) (rpub ropen : List String) :
    Configuration × List String × List String :=
  let c := { c with PublicDNSList := removeSpaces c.PublicDNSList }
  let rpub := if c.PublicDNSList != "" then goSplitComma c.PublicDNSList else rpub
  let c := { c with OpennicDNSList := removeSpaces c.OpennicDNSList }
  let ropen := if c.OpennicDNSList != "" then goSplitComma c.OpennicDNSList else ropen
  (c, rpub, ropen)

/-- Default connection limit (lines 477-479). -/
def deriveConnLimit (c : Configuration) : Configuration :=
  if c.ConnectionsLimit == 0 then { c with ConnectionsLimit := 50 } else c

/-- All derivation steps of `Reload` in source order; `none` models a panic
during derivation. -/
def deriveConfig (c : Configuration) (totalMemory : Nat) (rpub ropen : List String) :
    Option (Configuration × List String × List String) :=
  match deriveProxy (deriveOSDB (deriveTrakt (deriveStorage c totalMemory))) with
  | none => none
  | some c2 =>
    let r := deriveDNS c2 rpub ropen
    some (deriveConnLimit r.1, r.2.1, r.2.2)

/- ## The reload pipeline (Reload, lines 178-490) -/

/-- How a reload aborts: a path-validation panic carries the
`settingsWarning` message shown in the dialog; any other panic (failed type
assertion, slice index out of range) reaches the same `recover`
dialog-and-exit path with the generic message. -/
inductive ReloadAbort where
  | settingsError (msg : String)
  | panicAbort
  deriving DecidableEq

/-- The reload pipeline after host path resolution: path validation,
settings fetch + coercion, configuration construction, derivation, and
publication of the snapshot together with the rebuilt resolver lists.
`Except.error` is the recover/dialog/exit path; `Except.ok` is the
published state. -/
def Reload (check : String → Option String) (downloadPath libraryPath : String)
    (info : AddonInfo) (platform : XbmcPlatform) (language : String)
    (raws : List Setting) (totalMemory : Nat) (rpub ropen : List String) :
    Except ReloadAbort (Configuration × List String × List String) :=
  match (validatePaths downloadPath libraryPath check).1 with
  | .error m => .error (.settingsError m)
  | .ok p =>
    match buildConfig p.1 p.2 info platform language (coerceAll raws) with
    | none => .error .panicAbort
    | some b =>
      match deriveConfig b totalMemory rpub ropen with
      | none => .error .panicAbort
      | some out => .ok out

/- ## Filesystem model and IsWritablePath (lines 514-537) -/

/-- Abstract filesystem: the set of regular files (for the probe-file side
effect), a stat oracle (`.error msg` = stat failure, `.ok b` = exists with
`IsDir() = b`) and a create oracle (`some msg` = creation failure). -/
structure FileSystem where
  files : List String
  statR : String → Except String Bool
  createErr : String → Option String

/-- `IsWritablePath`: sentinel check, network-path check, stat/dir check,
then creation and removal of the transient `.writable` probe file.  Returns
the error (with the Go error message) and the final filesystem state. -/
def IsWritablePath (fs : FileSystem) (path : String) : Except String Unit × FileSystem :=
  if path == "." then (.error "Path not set", fs)
  else if strStarts path "nfs" || strStarts path "smb" then
    (.error ("Network paths are not supported, change " ++ path ++
      " to a locally mounted path by the OS"), fs)
  else
    match fs.statR path with
    | .error e => (.error e, fs)
    | .ok isDir =>
      if !isDir then (.error (path ++ " is not a valid directory"), fs)
      else
        let writableFile := path ++ "/.writable"
        match fs.createErr writableFile with
        | some e => (.error e, fs)
        | none =>
          let fs1 := { fs with files := writableFile :: fs.files }
          let fs2 := { fs1 with files := fs1.files.erase writableFile }
          (.ok (), fs2)


/- ## Concrete fixtures used by witnesses and counterexamples -/

def baseInfo : AddonInfo :=
  ⟨"plugin.video.elementum", "/p", "/profile", "/home", "/xbmc", "/tmp/elementum", "/icon"⟩

def basePlatform : XbmcPlatform := ⟨"linux"⟩

/-- A zero-valued configuration, used as the starting point of concrete
evaluation fixtures. -/
def baseConfig : Configuration := {
  DownloadPath := ""
  TorrentsPath := ""
  LibraryPath := ""
  Info := baseInfo
  Platform := basePlatform
  Language := ""
  TemporaryPath := ""
  ProfilePath := ""
  HomePath := ""
  XbmcPath := ""
  SpoofUserAgent := 0
  KeepDownloading := 0
  KeepFilesPlaying := 0
  KeepFilesFinished := 0
  DisableBgProgress := false
  DisableBgProgressPlayback := false
  ForceUseTrakt := false
  UseCacheSelection := false
  UseCacheSearch := false
  CacheSearchDuration := 0
  ResultsPerPage := 0
  EnableOverlayStatus := false
  SilentStreamStart := false
  ChooseStreamAuto := false
  ForceLinkType := false
  UseOriginalTitle := false
  AddSpecials := false
  ShowUnairedSeasons := false
  ShowUnairedEpisodes := false
  SmartEpisodeMatch := false
  DownloadStorage := 0
  AutoMemorySize := false
  AutoMemorySizeStrategy := 0
  MemorySize := 0
  BufferSize := 0
  UploadRateLimit := 0
  DownloadRateLimit := 0
  LimitAfterBuffering := false
  ConnectionsLimit := 0
  SeedTimeLimit := 0
  DisableUpload := false
  DisableDHT := false
  DisableTCP := false
  DisableUTP := false
  DisableUPNP := false
  EncryptionPolicy := 0
  ListenPortMin := 0
  ListenPortMax := 0
  ListenInterfaces := ""
  ListenAutoDetectIP := false
  ListenAutoDetectPort := false
  Scrobble := false
  TraktUsername := ""
  TraktToken := ""
  TraktRefreshToken := ""
  TraktTokenExpiry := 0
  TraktSyncFrequency := 0
  TraktSyncCollections := false
  TraktSyncWatchlist := false
  TraktSyncUserlists := false
  TraktSyncWatched := false
  TraktSyncWatchedBack := false
  UpdateFrequency := 0
  UpdateDelay := 0
  UpdateAutoScan := false
  PlayResume := false
  UseCloudHole := false
  CloudHoleKey := ""
  TMDBApiKey := ""
  OSDBUser := ""
  OSDBPass := ""
  OSDBLanguage := ""
  OSDBAutoLanguage := false
  SortingModeMovies := 0
  SortingModeShows := 0
  ResolutionPreferenceMovies := 0
  ResolutionPreferenceShows := 0
  PercentageAdditionalSeeders := 0
  UsePublicDNS := false
  PublicDNSList := ""
  OpennicDNSList := ""
  CustomProviderTimeoutEnabled := false
  CustomProviderTimeout := 0
  ProxyURL := ""
  ProxyType := 0
  ProxyEnabled := false
  ProxyHost := ""
  ProxyPort := 0
  ProxyLogin := ""
  ProxyPassword := ""
  CompletedMove := false
  CompletedMoviesPath := ""
  CompletedShowsPath := ""
}

/-- Raw host settings for every required key except the three proxy
parameters, with zero/false/empty values (split to keep literals small). -/
def hostRawsA : List Setting := [
  ⟨"download_storage", "number", "0", ""⟩,
  ⟨"auto_memory_size_strategy", "number", "0", ""⟩,
  ⟨"memory_size", "number", "0", ""⟩,
  ⟨"buffer_size", "number", "0", ""⟩,
  ⟨"max_upload_rate", "number", "0", ""⟩,
  ⟨"max_download_rate", "number", "0", ""⟩,
  ⟨"spoof_user_agent", "number", "0", ""⟩,
  ⟨"keep_downloading", "number", "0", ""⟩,
  ⟨"keep_files_playing", "number", "0", ""⟩,
  ⟨"keep_files_finished", "number", "0", ""⟩,
  ⟨"cache_search_duration", "number", "0", ""⟩,
  ⟨"results_per_page", "number", "0", ""⟩,
  ⟨"seed_time_limit", "number", "0", ""⟩,
  ⟨"encryption_policy", "number", "0", ""⟩,
  ⟨"listen_port_min", "number", "0", ""⟩,
  ⟨"listen_port_max", "number", "0", ""⟩,
  ⟨"connections_limit", "number", "0", ""⟩,
  ⟨"trakt_token_expiry", "number", "0", ""⟩,
  ⟨"trakt_sync", "number", "0", ""⟩,
  ⟨"library_update_frequency", "number", "0", ""⟩,
  ⟨"library_update_delay", "number", "0", ""⟩,
  ⟨"custom_provider_timeout", "number", "0", ""⟩,
  ⟨"sorting_mode_movies", "number", "0", ""⟩,
  ⟨"sorting_mode_shows", "number", "0", ""⟩,
  ⟨"resolution_preference_movies", "number", "0", ""⟩,
  ⟨"resolution_preference_shows", "number", "0", ""⟩,
  ⟨"percentage_additional_seeders", "number", "0", ""⟩]

def hostRawsB : List Setting := [
  ⟨"proxy_port", "number", "0", ""⟩,
  ⟨"auto_memory_size", "bool", "false", ""⟩,
  ⟨"limit_after_buffering", "bool", "false", ""⟩,
  ⟨"disable_bg_progress", "bool", "false", ""⟩,
  ⟨"disable_bg_progress_playback", "bool", "false", ""⟩,
  ⟨"force_use_trakt", "bool", "false", ""⟩,
  ⟨"use_cache_selection", "bool", "false", ""⟩,
  ⟨"use_cache_search", "bool", "false", ""⟩,
  ⟨"enable_overlay_status", "bool", "false", ""⟩,
  ⟨"silent_stream_start", "bool", "false", ""⟩,
  ⟨"choose_stream_auto", "bool", "false", ""⟩,
  ⟨"force_link_type", "bool", "false", ""⟩,
  ⟨"use_original_title", "bool", "false", ""⟩,
  ⟨"add_specials", "bool", "false", ""⟩,
  ⟨"unaired_seasons", "bool", "false", ""⟩,
  ⟨"unaired_episodes", "bool", "false", ""⟩,
  ⟨"smart_episode_match", "bool", "false", ""⟩,
  ⟨"disable_upload", "bool", "false", ""⟩,
  ⟨"disable_dht", "bool", "false", ""⟩,
  ⟨"disable_tcp", "bool", "false", ""⟩,
  ⟨"disable_utp", "bool", "false", ""⟩,
  ⟨"disable_upnp", "bool", "false", ""⟩,
  ⟨"listen_autodetect_ip", "bool", "false", ""⟩,
  ⟨"listen_autodetect_port", "bool", "false", ""⟩,
  ⟨"trakt_scrobble", "bool", "false", ""⟩,
  ⟨"trakt_sync_collections", "bool", "false", ""⟩,
  ⟨"trakt_sync_watchlist", "bool", "false", ""⟩]

def hostRawsC : List Setting := [
  ⟨"trakt_sync_userlists", "bool", "false", ""⟩,
  ⟨"trakt_sync_watched", "bool", "false", ""⟩,
  ⟨"trakt_sync_watchedback", "bool", "false", ""⟩,
  ⟨"library_auto_scan", "bool", "false", ""⟩,
  ⟨"play_resume", "bool", "false", ""⟩,
  ⟨"use_cloudhole", "bool", "false", ""⟩,
  ⟨"osdb_auto_language", "bool", "false", ""⟩,
  ⟨"use_public_dns", "bool", "false", ""⟩,
  ⟨"custom_provider_timeout_enabled", "bool", "false", ""⟩,
  ⟨"completed_move", "bool", "false", ""⟩,
  ⟨"listen_interfaces", "text", "", ""⟩,
  ⟨"trakt_username", "text", "", ""⟩,
  ⟨"trakt_token", "text", "", ""⟩,
  ⟨"trakt_refresh_token", "text", "", ""⟩,
  ⟨"cloudhole_key", "text", "", ""⟩,
  ⟨"tmdb_api_key", "text", "", ""⟩,
  ⟨"osdb_user", "text", "", ""⟩,
  ⟨"osdb_pass", "text", "", ""⟩,
  ⟨"osdb_language", "text", "", ""⟩,
  ⟨"public_dns_list", "text", "", ""⟩,
  ⟨"opennic_dns_list", "text", "", ""⟩,
  ⟨"proxy_login", "text", "", ""⟩,
  ⟨"proxy_password", "text", "", ""⟩,
  ⟨"completed_movies_path", "text", "", ""⟩,
  ⟨"completed_shows_path", "text", "", ""⟩]

/-- A complete raw-settings sequence covering every required key, with the
proxy type, proxy enabled flag and proxy host configurable. -/
def hostRawsWith (ptype penabled phost : String) : List Setting :=
  hostRawsA ++ hostRawsB ++ hostRawsC ++
    [⟨"proxy_type", "number", ptype, ""⟩,
     ⟨"proxy_enabled", "bool", penabled, ""⟩,
     ⟨"proxy_host", "text", phost, ""⟩]


/- ## Helper lemmas -/

theorem splitOnComma_ne_nil (l : List Char) : splitOnComma l ≠ [] := by
  induction l with
  | nil => simp [splitOnComma]
  | cons ch rest ih =>
    simp only [splitOnComma]
    split
    · simp
    · cases h : splitOnComma rest with
      | nil => simp
      | cons hd tl => simp

theorem mem_splitOnComma {ch : Char} :
    ∀ (l piece : List Char), piece ∈ splitOnComma l → ch ∈ piece → ch ∈ l
  | [], piece, hp, hc => by
    simp [splitOnComma] at hp
    subst hp
    cases hc
  | c :: rest, piece, hp, hc => by
    simp only [splitOnComma] at hp
    by_cases h : (c == ',') = true
    · rw [if_pos h] at hp
      rcases List.mem_cons.mp hp with h1 | h1
      · subst h1; cases hc
      · exact List.mem_cons_of_mem _ (mem_splitOnComma rest piece h1 hc)
    · rw [if_neg h] at hp
      cases hsp : splitOnComma rest with
      | nil => exact absurd hsp (splitOnComma_ne_nil rest)
      | cons hd tl =>
        rw [hsp] at hp
        rcases List.mem_cons.mp hp with h1 | h1
        · subst h1
          rcases List.mem_cons.mp hc with h2 | h2
          · subst h2; exact List.mem_cons_self _ _
          · refine List.mem_cons_of_mem _ (mem_splitOnComma rest hd ?_ h2)
            rw [hsp]; exact List.mem_cons_self hd tl
        · refine List.mem_cons_of_mem _ (mem_splitOnComma rest piece ?_ hc)
          rw [hsp]; exact List.mem_cons_of_mem hd h1

theorem removeSpaces_no_space (s : String) : ∀ ch ∈ (removeSpaces s).toList, ch ≠ ' ' := by
  intro ch h
  have h' : ch ∈ s.toList.filter (fun c => c != ' ') := h
  have := (List.mem_filter.mp h').2
  simpa using this

theorem goSplitComma_no_space (s : String) (hs : ∀ ch ∈ s.toList, ch ≠ ' ') :
    ∀ a ∈ goSplitComma s, ∀ ch ∈ a.toList, ch ≠ ' ' := by
  intro a ha ch hc
  obtain ⟨piece, hp, rfl⟩ := List.mem_map.mp ha
  exact hs ch (mem_splitOnComma s.toList piece hp hc)

/- ## C8: IsWritablePath -/

/-- C8: `IsWritablePath` fails with the "Path not set" error on the sentinel
".", with the unsupported-network-path error on an `nfs`/`smb` prefix, with
the underlying stat error when stat fails, with the "not a valid directory"
error when the target is not a directory, with the underlying creation error
when the probe file cannot be created; and on success it returns no error and
leaves the filesystem exactly as it found it (probe file created then
removed, no residue). -/
theorem C8_prop (fs : FileSystem) (path : String) :
    (path = "." → IsWritablePath fs path = (.error "Path not set", fs)) ∧
    (path ≠ "." → (strStarts path "nfs" || strStarts path "smb") = true →
      IsWritablePath fs path =
        (.error ("Network paths are not supported, change " ++ path ++
          " to a locally mounted path by the OS"), fs)) ∧
    (∀ e, path ≠ "." → (strStarts path "nfs" || strStarts path "smb") = false →
      fs.statR path = .error e → IsWritablePath fs path = (.error e, fs)) ∧
    (path ≠ "." → (strStarts path "nfs" || strStarts path "smb") = false →
      fs.statR path = .ok false →
      IsWritablePath fs path = (.error (path ++ " is not a valid directory"), fs)) ∧
    (∀ e, path ≠ "." → (strStarts path "nfs" || strStarts path "smb") = false →
      fs.statR path = .ok true → fs.createErr (path ++ "/.writable") = some e →
      IsWritablePath fs path = (.error e, fs)) ∧
    (path ≠ "." → (strStarts path "nfs" || strStarts path "smb") = false →
      fs.statR path = .ok true → fs.createErr (path ++ "/.writable") = none →
      IsWritablePath fs path = (.ok (), fs)) := by
  refine ⟨?_, ?_, ?_, ?_, ?_, ?_⟩
  · intro h
    have hb : (path == ".") = true := by simp [h]
    simp [IsWritablePath, hb]
  · intro h hn
    have hb : (path == ".") = false := by simp [h]
    simp [IsWritablePath, hb, hn]
  · intro e h hn hs
    have hb : (path == ".") = false := by simp [h]
    simp [IsWritablePath, hb, hn, hs]
  · intro h hn hs
    have hb : (path == ".") = false := by simp [h]
    simp [IsWritablePath, hb, hn, hs]
  · intro e h hn hs hc
    have hb : (path == ".") = false := by simp [h]
    simp [IsWritablePath, hb, hn, hs, hc]
  · intro h hn hs hc
    have hb : (path == ".") = false := by simp [h]
    simp [IsWritablePath, hb, hn, hs, hc, List.erase_cons_head]

/-- A plain writable directory: stat succeeds as a directory and probe-file
creation succeeds. -/
def fsSample : FileSystem := ⟨[], fun _ => .ok true, fun _ => none⟩

/-- C8 witness: on a writable directory the check succeeds and the
filesystem is unchanged afterwards. -/
theorem C8_witness : IsWritablePath fsSample "/downloads" = (.ok (), fsSample) :=
  (C8_prop fsSample "/downloads").2.2.2.2.2 (by decide) (by decide) rfl rfl


/- ## C3: path-validation abort behaviour -/

/-- C3 (amended): the path-validation stage aborts iff the download path is
the unset sentinel or fails the writability check, or the library path is
non-default and fails the check; an unset library path is silently defaulted
to the download path without a second check (the check trace is just the
download path); the abort message is the "no path configured" message for an
unset download path and the underlying check error otherwise; and a
validation abort surfaces as the dialog path with exactly that message.
(The reload can also reach the dialog path from later panics, which is why
the claim's "if and only if" over the whole reload fails.) -/
theorem C3_prop (downloadPath libraryPath : String) (check : String → Option String) :
    ((∃ m, (validatePaths downloadPath libraryPath check).1 = .error m) ↔
      (downloadPath = "." ∨ (check downloadPath).isSome = true ∨
        (libraryPath ≠ "." ∧ (check libraryPath).isSome = true))) ∧
    (downloadPath = "." →
      (validatePaths downloadPath libraryPath check).1 = .error "LOCALIZE[30113]") ∧
    (∀ e, downloadPath ≠ "." → check downloadPath = some e →
      (validatePaths downloadPath libraryPath check).1 = .error e) ∧
    (∀ e, downloadPath ≠ "." → check downloadPath = none → libraryPath ≠ "." →
      check libraryPath = some e →
      (validatePaths downloadPath libraryPath check).1 = .error e) ∧
    (downloadPath ≠ "." → check downloadPath = none → libraryPath = "." →
      validatePaths downloadPath libraryPath check =
        (.ok (downloadPath, downloadPath), [downloadPath])) ∧
    (∀ info platform language raws tm rpub ropen m,
      (validatePaths downloadPath libraryPath check).1 = .error m →
      Reload check downloadPath libraryPath info platform language raws tm rpub ropen =
        .error (.settingsError m)) := by
  refine ⟨?_, ?_, ?_, ?_, ?_, ?_⟩
  · constructor
    · rintro ⟨m, hm⟩
      by_cases hd : downloadPath = "."
      · exact Or.inl hd
      · cases hc : check downloadPath with
        | some e => exact Or.inr (Or.inl (by simp [hc]))
        | none =>
          by_cases hl : libraryPath = "."
          · exfalso
            have hv : (validatePaths downloadPath libraryPath check).1 =
                .ok (downloadPath, downloadPath) := by
              simp [validatePaths, (show (downloadPath == ".") = false by simp [hd]), hc,
                (show (libraryPath == ".") = true by simp [hl])]
            rw [hv] at hm
            cases hm
          · cases hcl : check libraryPath with
            | some e => exact Or.inr (Or.inr ⟨hl, by simp [hcl]⟩)
            | none =>
              exfalso
              have hv : (validatePaths downloadPath libraryPath check).1 =
                  .ok (downloadPath, libraryPath) := by
                simp [validatePaths, (show (downloadPath == ".") = false by simp [hd]), hc,
                  (show (libraryPath == ".") = false by simp [hl]), hcl]
              rw [hv] at hm
              cases hm
    · rintro (hd | hc | ⟨hl, hcl⟩)
      · exact ⟨"LOCALIZE[30113]",
          by simp [validatePaths, (show (downloadPath == ".") = true by simp [hd])]⟩
      · obtain ⟨e, he⟩ := Option.isSome_iff_exists.mp hc
        by_cases hd : downloadPath = "."
        · exact ⟨"LOCALIZE[30113]",
            by simp [validatePaths, (show (downloadPath == ".") = true by simp [hd])]⟩
        · exact ⟨e, by simp [validatePaths,
            (show (downloadPath == ".") = false by simp [hd]), he]⟩
      · obtain ⟨e, he⟩ := Option.isSome_iff_exists.mp hcl
        by_cases hd : downloadPath = "."
        · exact ⟨"LOCALIZE[30113]",
            by simp [validatePaths, (show (downloadPath == ".") = true by simp [hd])]⟩
        · cases hc : check downloadPath with
          | some e2 => exact ⟨e2, by simp [validatePaths,
              (show (downloadPath == ".") = false by simp [hd]), hc]⟩
          | none => exact ⟨e, by simp [validatePaths,
              (show (downloadPath == ".") = false by simp [hd]), hc,
              (show (libraryPath == ".") = false by simp [hl]), he]⟩
  · intro hd
    simp [validatePaths, (show (downloadPath == ".") = true by simp [hd])]
  · intro e hd hc
    simp [validatePaths, (show (downloadPath == ".") = false by simp [hd]), hc]
  · intro e hd hc hl hcl
    simp [validatePaths, (show (downloadPath == ".") = false by simp [hd]), hc,
      (show (libraryPath == ".") = false by simp [hl]), hcl]
  · intro hd hc hl
    simp [validatePaths, (show (downloadPath == ".") = false by simp [hd]), hc,
      (show (libraryPath == ".") = true by simp [hl])]
  · intro info platform language raws tm rpub ropen m hm
    simp [Reload, hm]

/-- C3 witness: with a writable download path and an unset library path,
validation succeeds, the library path is defaulted to the download path, and
only the download path was ever passed to the writability check. -/
theorem C3_witness :
    validatePaths "/data" "." (fun _ => none) = (.ok ("/data", "/data"), ["/data"]) :=
  (C3_prop "/data" "." (fun _ => none)).2.2.2.2.1 (by decide) rfl rfl

/-- C3 counterexample: both paths validate, yet the reload still aborts into
the dialog path (here: the raw-settings sequence is empty, so a construction
type assertion fails), refuting the claimed "if and only if". -/
theorem C3_counterexample :
    (validatePaths "/data" "/lib" (fun _ => none)).1 = .ok ("/data", "/lib") ∧
      Reload (fun _ => none) "/data" "/lib" baseInfo basePlatform "en" [] 0 [] [] =
        .error .panicAbort :=
  ⟨rfl, rfl⟩

/- ## C5: slider and enum coercion -/

/-- C5: slider coercion with sub-option percent or int parses as float and
truncates (raw "42.0" gives integer 42); with sub-option float it keeps the
fractional value (raw "0.5" gives float 0.5); the float form is stored only
when the parsed float is strictly positive and the sub-option is float,
otherwise an integer form is stored; and an unparsable number for an enum or
number key coerces to 0 (the coercion is total, so the reload proceeds). -/
theorem C5_prop :
    (coerceSetting ⟨"k1", "slider", "42.0", "percent"⟩ = .vInt 42) ∧
    (coerceSetting ⟨"k2", "slider", "42.0", "int"⟩ = .vInt 42) ∧
    (coerceSetting ⟨"k3", "slider", "0.5", "float"⟩ = .vFloat (1 / 2)) ∧
    (∀ s : Setting, s.SettingType = "slider" →
      ((0 < goParseFloatVal s.Value ∧ s.SettingOption = "float" ∧
          coerceSetting s = .vFloat (goParseFloatVal s.Value)) ∨
        ((¬(0 < goParseFloatVal s.Value ∧ s.SettingOption = "float")) ∧
          ∃ n, coerceSetting s = .vInt n))) ∧
    (coerceSetting ⟨"k4", "enum", "xyz", ""⟩ = .vInt 0) ∧
    (coerceSetting ⟨"k5", "number", "xyz", ""⟩ = .vInt 0) := by
  refine ⟨by decide, by decide, ?_, ?_, by decide, by decide⟩
  · have h1 : coerceSetting ⟨"k3", "slider", "0.5", "float"⟩ = .vFloat (Dec.toRat ⟨5, 1⟩) := rfl
    rw [h1]
    norm_num [Dec.toRat]
  · intro s hty
    by_cases hopt : s.SettingOption = "float"
    · by_cases hpos : 0 < goParseFloatVal s.Value
      · refine Or.inl ⟨hpos, hopt, ?_⟩
        have hnum : 0 < ((parseDec s.Value).getD decZero).num := (Dec.toRat_pos _).mp hpos
        simp [coerceSetting, hty, hopt, hnum, goParseFloatVal]
      · refine Or.inr ⟨fun h => hpos h.1, 0, ?_⟩
        have hnum : ¬ 0 < ((parseDec s.Value).getD decZero).num :=
          fun h => hpos ((Dec.toRat_pos _).mpr h)
        simp [coerceSetting, hty, hopt, hnum]
    · refine Or.inr ⟨fun h => hopt h.2, ?_, ?_⟩
      · exact if s.SettingOption == "percent" || s.SettingOption == "int" then
          truncDec ((parseDec s.Value).getD decZero) else 0
      · simp [coerceSetting, hty,
          (show (s.SettingOption == "float") = false by simp [hopt]), decZero]

/-- C5 witness: a negative float slider value is not stored in float form;
the integer form is stored instead. -/
theorem C5_witness :
    (0 < goParseFloatVal "-3.5" ∧ ("float" : String) = "float" ∧
        coerceSetting ⟨"kw", "slider", "-3.5", "float"⟩ = .vFloat (goParseFloatVal "-3.5")) ∨
      ((¬(0 < goParseFloatVal "-3.5" ∧ ("float" : String) = "float")) ∧
        ∃ n, coerceSetting ⟨"kw", "slider", "-3.5", "float"⟩ = .vInt n) :=
  C5_prop.2.2.2.1 ⟨"kw", "slider", "-3.5", "float"⟩ rfl

/- ## C6: DNS resolver rebuild -/

/-- C6 (amended): each reload strips all space characters (exactly the
space, U+0020 — not all whitespace) from each of the two DNS lists; if the
result is non-empty, that category's resolver is rebuilt as the comma-split
of it (so the rebuilt addresses contain no spaces, and the documented
example holds); if the result is empty the existing resolver list is left
untouched. -/
theorem C6_prop (c : Configuration) (rpub ropen : List String)
    (c' : Configuration) (rp' ro' : List String)
    (h : deriveDNS c rpub ropen = (c', rp', ro')) :
    (c'.PublicDNSList = removeSpaces c.PublicDNSList ∧
      (∀ ch ∈ c'.PublicDNSList.toList, ch ≠ ' ') ∧
      (removeSpaces c.PublicDNSList ≠ "" →
        rp' = goSplitComma (removeSpaces c.PublicDNSList) ∧
          ∀ a ∈ rp', ∀ ch ∈ a.toList, ch ≠ ' ') ∧
      (removeSpaces c.PublicDNSList = "" → rp' = rpub)) ∧
    (c'.OpennicDNSList = removeSpaces c.OpennicDNSList ∧
      (∀ ch ∈ c'.OpennicDNSList.toList, ch ≠ ' ') ∧
      (removeSpaces c.OpennicDNSList ≠ "" →
        ro' = goSplitComma (removeSpaces c.OpennicDNSList) ∧
          ∀ a ∈ ro', ∀ ch ∈ a.toList, ch ≠ ' ') ∧
      (removeSpaces c.OpennicDNSList = "" → ro' = ropen)) ∧
    goSplitComma (removeSpaces "1.1.1.1, 8.8.8.8 ,9.9.9.9") =
      ["1.1.1.1", "8.8.8.8", "9.9.9.9"] := by
  have h1 : c' = (deriveDNS c rpub ropen).1 := by rw [h]
  have h2 : rp' = (deriveDNS c rpub ropen).2.1 := by rw [h]
  have h3 : ro' = (deriveDNS c rpub ropen).2.2 := by rw [h]
  subst h1 h2 h3
  refine ⟨⟨rfl, ?_, ?_, ?_⟩, ⟨rfl, ?_, ?_, ?_⟩, by decide⟩
  · show ∀ ch ∈ (removeSpaces c.PublicDNSList).toList, ch ≠ ' '
    exact removeSpaces_no_space _
  · intro hne
    have he : (deriveDNS c rpub ropen).2.1 = goSplitComma (removeSpaces c.PublicDNSList) := by
      show (if (removeSpaces c.PublicDNSList != "") = true then
        goSplitComma (removeSpaces c.PublicDNSList) else rpub) = _
      simp [hne]
    rw [he]
    exact ⟨rfl, goSplitComma_no_space _ (removeSpaces_no_space _)⟩
  · intro heq
    show (if (removeSpaces c.PublicDNSList != "") = true then
      goSplitComma (removeSpaces c.PublicDNSList) else rpub) = rpub
    simp [heq]
  · show ∀ ch ∈ (removeSpaces c.OpennicDNSList).toList, ch ≠ ' '
    exact removeSpaces_no_space _
  · intro hne
    have he : (deriveDNS c rpub ropen).2.2 = goSplitComma (removeSpaces c.OpennicDNSList) := by
      show (if (removeSpaces c.OpennicDNSList != "") = true then
        goSplitComma (removeSpaces c.OpennicDNSList) else ropen) = _
      simp [hne]
    rw [he]
    exact ⟨rfl, goSplitComma_no_space _ (removeSpaces_no_space _)⟩
  · intro heq
    show (if (removeSpaces c.OpennicDNSList != "") = true then
      goSplitComma (removeSpaces c.OpennicDNSList) else ropen) = ropen
    simp [heq]

def dnsSpacesConfig : Configuration :=
  { baseConfig with PublicDNSList := "1.1.1.1, 8.8.8.8 ,9.9.9.9" }

/-- C6 witness: the documented spaces-and-commas example rebuilds the public
resolver to exactly the three addresses, with no embedded whitespace. -/
theorem C6_witness :
    (deriveDNS dnsSpacesConfig ["10.0.0.1"] []).2.1 = ["1.1.1.1", "8.8.8.8", "9.9.9.9"] := by
  have h := C6_prop dnsSpacesConfig ["10.0.0.1"] []
    (deriveDNS dnsSpacesConfig ["10.0.0.1"] []).1
    (deriveDNS dnsSpacesConfig ["10.0.0.1"] []).2.1
    (deriveDNS dnsSpacesConfig ["10.0.0.1"] []).2.2 rfl
  have h2 := (h.1.2.2.1 (by decide)).1
  rw [h2]
  decide

def dnsTabConfig : Configuration :=
  { baseConfig with PublicDNSList := "1.1.1.1,\t8.8.8.8" }

/-- C6 counterexample: a tab in the configured list survives the strip (only
spaces are removed), so the rebuilt resolver contains an address with
embedded whitespace, refuting "strips all whitespace". -/
theorem C6_counterexample :
    (deriveDNS dnsTabConfig [] []).2.1 = ["1.1.1.1", "\t8.8.8.8"] ∧
      '\t' ∈ ("\t8.8.8.8" : String).toList :=
  ⟨by decide, by decide⟩


/- ## Derivation-pipeline helper lemmas -/

theorem goIndex_proxyTypes_of_lt {i : Int} (h0 : 0 ≤ i) (h4 : i < 4) :
    ∃ s, goIndex proxyTypes i = some s := by
  unfold goIndex
  rw [if_pos h0]
  interval_cases i
  · exact ⟨"Socks4", rfl⟩
  · exact ⟨"Socks5", rfl⟩
  · exact ⟨"HTTP", rfl⟩
  · exact ⟨"HTTPS", rfl⟩

theorem goIndex_proxyTypes_none {i : Int} (h : i < 0 ∨ 4 ≤ i) :
    goIndex proxyTypes i = none := by
  unfold goIndex
  rcases h with h | h
  · rw [if_neg (by omega)]
  · rw [if_pos (by omega)]
    apply List.get?_eq_none.mpr
    show proxyTypes.length ≤ i.toNat
    simp only [proxyTypes, List.length_cons, List.length_nil]
    omega

theorem deriveStorage_untouched (c : Configuration) (tm : Nat) :
    (deriveStorage c tm).ProxyEnabled = c.ProxyEnabled ∧
    (deriveStorage c tm).ProxyHost = c.ProxyHost ∧
    (deriveStorage c tm).ProxyType = c.ProxyType ∧
    (deriveStorage c tm).ProxyLogin = c.ProxyLogin ∧
    (deriveStorage c tm).ProxyPassword = c.ProxyPassword ∧
    (deriveStorage c tm).ProxyPort = c.ProxyPort := by
  unfold deriveStorage
  dsimp only
  repeat' split
  all_goals exact ⟨rfl, rfl, rfl, rfl, rfl, rfl⟩

theorem deriveTrakt_fields (c : Configuration) :
    (deriveTrakt c).MemorySize = c.MemorySize ∧
    (deriveTrakt c).CompletedMove = c.CompletedMove ∧
    (deriveTrakt c).KeepDownloading = c.KeepDownloading ∧
    (deriveTrakt c).KeepFilesFinished = c.KeepFilesFinished ∧
    (deriveTrakt c).KeepFilesPlaying = c.KeepFilesPlaying ∧
    (deriveTrakt c).ProxyEnabled = c.ProxyEnabled ∧
    (deriveTrakt c).ProxyHost = c.ProxyHost ∧
    (deriveTrakt c).ProxyType = c.ProxyType ∧
    (deriveTrakt c).ProxyLogin = c.ProxyLogin ∧
    (deriveTrakt c).ProxyPassword = c.ProxyPassword ∧
    (deriveTrakt c).ProxyPort = c.ProxyPort := by
  unfold deriveTrakt
  split
  all_goals exact ⟨rfl, rfl, rfl, rfl, rfl, rfl, rfl, rfl, rfl, rfl, rfl⟩

theorem deriveOSDB_fields (c : Configuration) :
    (deriveOSDB c).MemorySize = c.MemorySize ∧
    (deriveOSDB c).CompletedMove = c.CompletedMove ∧
    (deriveOSDB c).KeepDownloading = c.KeepDownloading ∧
    (deriveOSDB c).KeepFilesFinished = c.KeepFilesFinished ∧
    (deriveOSDB c).KeepFilesPlaying = c.KeepFilesPlaying ∧
    (deriveOSDB c).ProxyEnabled = c.ProxyEnabled ∧
    (deriveOSDB c).ProxyHost = c.ProxyHost ∧
    (deriveOSDB c).ProxyType = c.ProxyType ∧
    (deriveOSDB c).ProxyLogin = c.ProxyLogin ∧
    (deriveOSDB c).ProxyPassword = c.ProxyPassword ∧
    (deriveOSDB c).ProxyPort = c.ProxyPort := by
  unfold deriveOSDB
  split
  all_goals exact ⟨rfl, rfl, rfl, rfl, rfl, rfl, rfl, rfl, rfl, rfl, rfl⟩

theorem deriveProxy_fields {c c2 : Configuration} (h : deriveProxy c = some c2) :
    c2.MemorySize = c.MemorySize ∧
    c2.CompletedMove = c.CompletedMove ∧
    c2.KeepDownloading = c.KeepDownloading ∧
    c2.KeepFilesFinished = c.KeepFilesFinished ∧
    c2.KeepFilesPlaying = c.KeepFilesPlaying := by
  unfold deriveProxy at h
  split at h
  · cases hg : goIndex proxyTypes c.ProxyType with
    | none => rw [hg] at h; cases h
    | some scheme =>
      rw [hg] at h
      dsimp only at h
      injection h with h
      subst h
      exact ⟨rfl, rfl, rfl, rfl, rfl⟩
  · injection h with h
    subst h
    exact ⟨rfl, rfl, rfl, rfl, rfl⟩

theorem deriveTail_fields (c2 : Configuration) (rpub ropen : List String) :
    (deriveConnLimit (deriveDNS c2 rpub ropen).1).MemorySize = c2.MemorySize ∧
    (deriveConnLimit (deriveDNS c2 rpub ropen).1).CompletedMove = c2.CompletedMove ∧
    (deriveConnLimit (deriveDNS c2 rpub ropen).1).KeepDownloading = c2.KeepDownloading ∧
    (deriveConnLimit (deriveDNS c2 rpub ropen).1).KeepFilesFinished = c2.KeepFilesFinished ∧
    (deriveConnLimit (deriveDNS c2 rpub ropen).1).KeepFilesPlaying = c2.KeepFilesPlaying ∧
    (deriveConnLimit (deriveDNS c2 rpub ropen).1).ProxyURL = c2.ProxyURL := by
  unfold deriveConnLimit deriveDNS
  dsimp only
  repeat' split
  all_goals exact ⟨rfl, rfl, rfl, rfl, rfl, rfl⟩

theorem deriveConfig_eq {c : Configuration} {tm : Nat} {rpub ropen : List String}
    {out : Configuration × List String × List String}
    (h : deriveConfig c tm rpub ropen = some out) :
    ∃ c2, deriveProxy (deriveOSDB (deriveTrakt (deriveStorage c tm))) = some c2 ∧
      out = (deriveConnLimit (deriveDNS c2 rpub ropen).1,
             (deriveDNS c2 rpub ropen).2.1, (deriveDNS c2 rpub ropen).2.2) := by
  unfold deriveConfig at h
  cases hg : deriveProxy (deriveOSDB (deriveTrakt (deriveStorage c tm))) with
  | none => rw [hg] at h; cases h
  | some c2 =>
    rw [hg] at h
    injection h with h
    exact ⟨c2, rfl, h.symm⟩

/-- The memory-related fields of a published configuration are exactly those
produced by the storage-derivation step. -/
theorem deriveConfig_mem_fields {c : Configuration} {tm : Nat} {rpub ropen : List String}
    {c' : Configuration} {rp' ro' : List String}
    (h : deriveConfig c tm rpub ropen = some (c', rp', ro')) :
    c'.MemorySize = (deriveStorage c tm).MemorySize ∧
    c'.CompletedMove = (deriveStorage c tm).CompletedMove ∧
    c'.KeepDownloading = (deriveStorage c tm).KeepDownloading ∧
    c'.KeepFilesFinished = (deriveStorage c tm).KeepFilesFinished ∧
    c'.KeepFilesPlaying = (deriveStorage c tm).KeepFilesPlaying := by
  obtain ⟨c2, hc2, hout⟩ := deriveConfig_eq h
  have hc' : c' = deriveConnLimit (deriveDNS c2 rpub ropen).1 := congrArg Prod.fst hout
  obtain ⟨t1, t2, t3, t4, t5, -⟩ := deriveTail_fields c2 rpub ropen
  obtain ⟨p1, p2, p3, p4, p5⟩ := deriveProxy_fields hc2
  obtain ⟨o1, o2, o3, o4, o5, -⟩ := deriveOSDB_fields (deriveTrakt (deriveStorage c tm))
  obtain ⟨k1, k2, k3, k4, k5, -⟩ := deriveTrakt_fields (deriveStorage c tm)
  rw [hc']
  exact ⟨t1.trans (p1.trans (o1.trans k1)), t2.trans (p2.trans (o2.trans k2)),
    t3.trans (p3.trans (o3.trans k3)), t4.trans (p4.trans (o4.trans k4)),
    t5.trans (p5.trans (o5.trans k5))⟩


theorem deriveStorage_overrides {c : Configuration} (tm : Nat) (h : c.DownloadStorage = 1) :
    (deriveStorage c tm).CompletedMove = false ∧
    (deriveStorage c tm).KeepDownloading = 2 ∧
    (deriveStorage c tm).KeepFilesFinished = 2 ∧
    (deriveStorage c tm).KeepFilesPlaying = 2 := by
  unfold deriveStorage
  rw [show (c.DownloadStorage == 1) = true by simp [h], if_pos rfl]
  dsimp only
  repeat' split
  all_goals exact ⟨rfl, rfl, rfl, rfl⟩

theorem deriveStorage_MemorySize_s0 {c : Configuration} (tm : Nat)
    (h1 : c.DownloadStorage = 1) (h2 : c.AutoMemorySize = true)
    (h3 : c.AutoMemorySizeStrategy = 0) :
    (deriveStorage c tm).MemorySize = 40 * 1024 * 1024 := by
  unfold deriveStorage
  rw [show (c.DownloadStorage == 1) = true by simp [h1], if_pos rfl]
  dsimp only
  rw [h2, if_pos rfl, show (c.AutoMemorySizeStrategy == 0) = true by simp [h3], if_pos rfl]

theorem deriveStorage_MemorySize_pos {c : Configuration} {tm : Nat}
    (h1 : c.DownloadStorage = 1) (h2 : c.AutoMemorySize = true)
    (h3 : (c.AutoMemorySizeStrategy == 0) = false)
    (hmem : 0 < tm % U64 / 100 * uint64OfInt (5 + 5 * (c.AutoMemorySizeStrategy - 1)) % U64) :
    (deriveStorage c tm).MemorySize =
      if maxMemorySize <
          intOfUint64 (tm % U64 / 100 * uint64OfInt (5 + 5 * (c.AutoMemorySizeStrategy - 1)) % U64)
      then maxMemorySize
      else intOfUint64 (tm % U64 / 100 * uint64OfInt (5 + 5 * (c.AutoMemorySizeStrategy - 1)) % U64) := by
  unfold deriveStorage
  rw [show (c.DownloadStorage == 1) = true by simp [h1], if_pos rfl]
  dsimp only
  rw [h2, if_pos rfl, h3, if_neg (by simp)]
  try dsimp only
  rw [if_pos hmem]
  try dsimp only
  split <;> rfl

theorem deriveStorage_MemorySize_zero {c : Configuration} {tm : Nat}
    (h1 : c.DownloadStorage = 1) (h2 : c.AutoMemorySize = true)
    (h3 : (c.AutoMemorySizeStrategy == 0) = false)
    (hmem : ¬ 0 < tm % U64 / 100 * uint64OfInt (5 + 5 * (c.AutoMemorySizeStrategy - 1)) % U64) :
    (deriveStorage c tm).MemorySize =
      if maxMemorySize < c.MemorySize then maxMemorySize else c.MemorySize := by
  unfold deriveStorage
  rw [show (c.DownloadStorage == 1) = true by simp [h1], if_pos rfl]
  dsimp only
  rw [h2, if_pos rfl, h3, if_neg (by simp)]
  try dsimp only
  rw [if_neg hmem]
  try dsimp only
  split <;> rfl

/- ## C7: memory-backed storage overrides -/

/-- C7: whenever a reload with memory-backed storage (DownloadStorage = 1)
publishes a configuration, the post-completion-move flag is forced to false
and the three keep flags are forced to the "always" sentinel 2, regardless
of their raw configured values. -/
theorem C7_prop (c : Configuration) (tm : Nat) (rpub ropen : List String)
    (c' : Configuration) (rp' ro' : List String)
    (h : deriveConfig c tm rpub ropen = some (c', rp', ro'))
    (hs : c.DownloadStorage = 1) :
    c'.CompletedMove = false ∧ c'.KeepDownloading = 2 ∧
      c'.KeepFilesFinished = 2 ∧ c'.KeepFilesPlaying = 2 := by
  obtain ⟨-, h2, h3, h4, h5⟩ := deriveConfig_mem_fields h
  obtain ⟨o1, o2, o3, o4⟩ := deriveStorage_overrides tm hs
  exact ⟨h2.trans o1, h3.trans o2, h4.trans o3, h5.trans o4⟩

/-- Memory-backed storage with raw keep/move values that differ from the
forced ones. -/
def memConfig : Configuration :=
  { baseConfig with
    DownloadStorage := 1
    CompletedMove := true
    KeepDownloading := 0
    KeepFilesFinished := 0
    KeepFilesPlaying := 1 }

/-- C7 witness: the overrides are observable on a concrete configuration. -/
theorem C7_witness :
    ∃ c' rp' ro', deriveConfig memConfig 0 [] [] = some (c', rp', ro') ∧
      c'.CompletedMove = false ∧ c'.KeepDownloading = 2 ∧
      c'.KeepFilesFinished = 2 ∧ c'.KeepFilesPlaying = 2 := by
  refine ⟨_, _, _, rfl, ?_⟩
  exact C7_prop memConfig 0 [] [] _ _ _ rfl rfl

/- ## C1: proxy URL assembly -/

/-- C1 (amended): when proxy is enabled with a non-empty host and an
in-range proxy type, the published ProxyURL is the element of
{Socks4, Socks5, HTTP, HTTPS} at index proxy-type (with exactly that
casing), followed by "://", the credential segment (only when login or
password is non-empty), host, ":" and the port; in particular type 1 with
empty credentials gives `Socks5://h:1080` and type 2 with credentials
gives `HTTP://u:p@h:80`. -/
theorem C1_prop (c : Configuration) (tm : Nat) (rpub ropen : List String)
    (c' : Configuration) (rp' ro' : List String) (scheme : String)
    (h : deriveConfig c tm rpub ropen = some (c', rp', ro'))
    (he : c.ProxyEnabled = true) (hh : c.ProxyHost ≠ "")
    (hidx : goIndex proxyTypes c.ProxyType = some scheme) :
    (c.ProxyLogin = "" ∧ c.ProxyPassword = "" →
      c'.ProxyURL = scheme ++ "://" ++ c.ProxyHost ++ ":" ++ toString c.ProxyPort) ∧
    (¬(c.ProxyLogin = "" ∧ c.ProxyPassword = "") →
      c'.ProxyURL = scheme ++ "://" ++ c.ProxyLogin ++ ":" ++ c.ProxyPassword ++ "@" ++
        c.ProxyHost ++ ":" ++ toString c.ProxyPort) := by
  obtain ⟨c2, hc2, hout⟩ := deriveConfig_eq h
  have hc' : c' = deriveConnLimit (deriveDNS c2 rpub ropen).1 := congrArg Prod.fst hout
  obtain ⟨-, -, -, -, -, turl⟩ := deriveTail_fields c2 rpub ropen
  obtain ⟨-, -, -, -, -, oe, oh, ot, ol, op, opt⟩ :=
    deriveOSDB_fields (deriveTrakt (deriveStorage c tm))
  obtain ⟨-, -, -, -, -, te, th, tt, tl, tp, tpt⟩ := deriveTrakt_fields (deriveStorage c tm)
  obtain ⟨se, sh, st, sl, sp, spt⟩ := deriveStorage_untouched c tm
  have hPE := oe.trans (te.trans se)
  have hPH := oh.trans (th.trans sh)
  have hPT := ot.trans (tt.trans st)
  have hPL := ol.trans (tl.trans sl)
  have hPP := op.trans (tp.trans sp)
  have hPPort := opt.trans (tpt.trans spt)
  unfold deriveProxy at hc2
  rw [hPE, hPH, hPT, hPL, hPP, hPPort] at hc2
  rw [if_pos (show (c.ProxyEnabled && c.ProxyHost != "") = true by rw [he]; simpa using hh)] at hc2
  rw [hidx] at hc2
  dsimp only at hc2
  injection hc2 with hc2
  have hurl : c'.ProxyURL =
      (if (c.ProxyLogin != "" || c.ProxyPassword != "") = true then
        scheme ++ "://" ++ c.ProxyLogin ++ ":" ++ c.ProxyPassword ++ "@"
      else scheme ++ "://") ++ c.ProxyHost ++ ":" ++ toString c.ProxyPort := by
    rw [hc', turl, ← hc2]
  constructor
  · rintro ⟨e1, e2⟩
    rw [hurl, show (c.ProxyLogin != "" || c.ProxyPassword != "") = false by simp [e1, e2],
      if_neg (by simp)]
  · intro hne
    have hcond : (c.ProxyLogin != "" || c.ProxyPassword != "") = true := by
      by_cases hl : c.ProxyLogin = ""
      · by_cases hp : c.ProxyPassword = ""
        · exact absurd ⟨hl, hp⟩ hne
        · simp [hp]
      · simp [hl]
    rw [hurl, hcond, if_pos rfl]

/-- Proxy enabled, Socks5 (type 1), host "h", port 1080, no credentials. -/
def proxySocksConfig : Configuration :=
  { baseConfig with
    ProxyEnabled := true
    ProxyType := 1
    ProxyHost := "h"
    ProxyPort := 1080 }

/-- C1 witness: the amended claim at type 1, host "h", port 1080 and empty
credentials: the URL is `Socks5://h:1080`. -/
theorem C1_witness :
    ∃ c' rp' ro', deriveConfig proxySocksConfig 0 [] [] = some (c', rp', ro') ∧
      c'.ProxyURL = "Socks5://h:1080" := by
  refine ⟨_, _, _, rfl, ?_⟩
  have h := (C1_prop proxySocksConfig 0 [] [] _ _ _ "Socks5" rfl rfl (by decide) rfl).1
    ⟨rfl, rfl⟩
  rw [h]
  decide

/-- C1 counterexample: with type 1 (Socks5), host "h", port 1080 and empty
credentials the published URL is `Socks5://h:1080`, not the claimed
lowercase `socks5://h:1080`: the scheme list entries are capitalised. -/
theorem C1_counterexample :
    ((deriveConfig proxySocksConfig 0 [] []).map fun r => r.1.ProxyURL) =
        some "Socks5://h:1080" ∧
      "Socks5://h:1080" ≠ "socks5://h:1080" :=
  ⟨rfl, by decide⟩

/- ## C9: out-of-range proxy type panics -/

/-- C9: proxy URL assembly indexes the four-element scheme list without a
bounds check: if the built configuration has proxy enabled, a non-empty
host and a proxy type outside 0..3, the reload panics (slice index out of
range), reaching the recover/dialog abort path instead of publishing. -/
theorem C9_prop (check : String → Option String) (downloadPath libraryPath : String)
    (info : AddonInfo) (platform : XbmcPlatform) (language : String)
    (raws : List Setting) (tm : Nat) (rpub ropen : List String)
    (d l : String) (c : Configuration)
    (hv : (validatePaths downloadPath libraryPath check).1 = .ok (d, l))
    (hb : buildConfig d l info platform language (coerceAll raws) = some c)
    (he : c.ProxyEnabled = true) (hh : c.ProxyHost ≠ "")
    (ht : c.ProxyType < 0 ∨ 4 ≤ c.ProxyType) :
    Reload check downloadPath libraryPath info platform language raws tm rpub ropen =
      .error .panicAbort := by
  obtain ⟨-, -, -, -, -, oe, oh, ot, -, -, -⟩ :=
    deriveOSDB_fields (deriveTrakt (deriveStorage c tm))
  obtain ⟨-, -, -, -, -, te, th, tt, -, -, -⟩ := deriveTrakt_fields (deriveStorage c tm)
  obtain ⟨se, sh, st, -, -, -⟩ := deriveStorage_untouched c tm
  have hPE := oe.trans (te.trans se)
  have hPH := oh.trans (th.trans sh)
  have hPT := ot.trans (tt.trans st)
  have hproxy : deriveProxy (deriveOSDB (deriveTrakt (deriveStorage c tm))) = none := by
    unfold deriveProxy
    rw [hPE, hPH, hPT]
    rw [if_pos (show (c.ProxyEnabled && c.ProxyHost != "") = true by rw [he]; simpa using hh)]
    rw [goIndex_proxyTypes_none ht]
  have hnone : deriveConfig c tm rpub ropen = none := by
    unfold deriveConfig
    rw [hproxy]
  simp [Reload, hv, hb, hnone]

/-- C9 witness: a full well-typed settings sequence with proxy type 5 makes
the reload abort through the panic path. -/
theorem C9_witness :
    Reload (fun _ => none) "/d" "/lib" baseInfo basePlatform "en"
      (hostRawsWith "5" "true" "h") 0 [] [] = .error .panicAbort := by
  exact C9_prop (fun _ => none) "/d" "/lib" baseInfo basePlatform "en"
    (hostRawsWith "5" "true" "h") 0 [] [] "/d" "/lib" _ rfl rfl (by decide) (by decide)
    (Or.inr (by decide))


/- ## C2: adaptive memory sizing -/

/-- The trailing 200 MiB cap is a `min`. -/
theorem cap_min (x : Int) :
    (if maxMemorySize < x then maxMemorySize else x) = min x maxMemorySize := by
  unfold maxMemorySize
  split <;> omega

/-- C2 (amended): with memory-backed storage and auto sizing, strategy 0
publishes exactly 40 MiB; for strategy s ≥ 1 the computed share is
(totalMemory div 100) × (5+5(s−1)) — the integer division by 100 happens
before the multiplication — and the published budget is min(share, 200 MiB)
when the share is positive, and min(raw MemorySize, 200 MiB) when the share
is zero (the raw value is kept but the 200 MiB cap still applies). -/
theorem C2_prop (c : Configuration) (tm : Nat) (rpub ropen : List String)
    (c' : Configuration) (rp' ro' : List String)
    (h : deriveConfig c tm rpub ropen = some (c', rp', ro'))
    (h1 : c.DownloadStorage = 1) (h2 : c.AutoMemorySize = true) :
    (c.AutoMemorySizeStrategy = 0 → c'.MemorySize = 40 * 1024 * 1024) ∧
    (∀ s : Int, c.AutoMemorySizeStrategy = s → 1 ≤ s → 5 * s < 2 ^ 64 → tm < 2 ^ 64 →
      tm / 100 * (5 * s).toNat < 2 ^ 63 →
      c'.MemorySize =
        min (if 0 < tm / 100 * (5 * s).toNat then ((tm / 100 * (5 * s).toNat : Nat) : Int)
             else c.MemorySize) maxMemorySize) := by
  have hm := (deriveConfig_mem_fields h).1
  constructor
  · intro h0
    rw [hm, deriveStorage_MemorySize_s0 tm h1 h2 h0]
  · intro s hs hs1 hs64 htm hb
    have h5nonneg : (0 : Int) ≤ 5 * s := mul_nonneg (by norm_num) (le_trans zero_le_one hs1)
    have hU64cast : ((U64 : Nat) : Int) = 2 ^ 64 := by norm_num [U64]
    have hpct : uint64OfInt (5 + 5 * (c.AutoMemorySizeStrategy - 1)) = (5 * s).toNat := by
      rw [hs]
      unfold uint64OfInt
      have h5 : (5 : Int) + 5 * (s - 1) = 5 * s := by ring
      rw [h5, hU64cast, Int.emod_eq_of_lt h5nonneg hs64]
    have htm' : tm % U64 = tm := Nat.mod_eq_of_lt htm
    have hprodlt : tm / 100 * (5 * s).toNat < U64 := lt_trans hb (by norm_num [U64])
    have hmem : tm % U64 / 100 * uint64OfInt (5 + 5 * (c.AutoMemorySizeStrategy - 1)) % U64 =
        tm / 100 * (5 * s).toNat := by
      rw [hpct, htm']
      exact Nat.mod_eq_of_lt hprodlt
    have h3 : (c.AutoMemorySizeStrategy == 0) = false := by
      rw [hs]
      simp only [beq_eq_false_iff_ne]
      exact fun he => by rw [he] at hs1; exact absurd hs1 (by norm_num)
    by_cases hp : 0 < tm / 100 * (5 * s).toNat
    · rw [hm, deriveStorage_MemorySize_pos h1 h2 h3 (by rw [hmem]; exact hp), hmem]
      have hio : intOfUint64 (tm / 100 * (5 * s).toNat) =
          ((tm / 100 * (5 * s).toNat : Nat) : Int) := by
        unfold intOfUint64
        rw [if_pos hb]
      rw [hio, if_pos hp]
      exact cap_min _
    · rw [hm, deriveStorage_MemorySize_zero h1 h2 h3 (by rw [hmem]; exact hp), if_neg hp]
      exact cap_min _

/-- Memory-backed storage with auto sizing, strategy 1, raw size 0. -/
def autoMemConfig : Configuration :=
  { baseConfig with
    DownloadStorage := 1
    AutoMemorySize := true
    AutoMemorySizeStrategy := 1 }

/-- C2 witness: strategy 1 with 2000 bytes of system memory publishes
min(2000 div 100 × 5, 200 MiB) = 100. -/
theorem C2_witness :
    ∃ c' rp' ro', deriveConfig autoMemConfig 2000 [] [] = some (c', rp', ro') ∧
      c'.MemorySize =
        min (if 0 < 2000 / 100 * ((5 * 1 : Int)).toNat then
              ((2000 / 100 * ((5 * 1 : Int)).toNat : Nat) : Int)
            else autoMemConfig.MemorySize) maxMemorySize := by
  refine ⟨_, _, _, rfl, ?_⟩
  exact (C2_prop autoMemConfig 2000 [] [] _ _ _ rfl rfl rfl).2 1 rfl (by decide)
    (by decide) (by decide) (by decide)

/-- C2 counterexample: with 199 bytes of system memory and strategy 1 the
code publishes (199 div 100) × 5 = 5, while the claimed formula
min(199 × 5 div 100, 200 MiB) = 9: the division happens before the
multiplication. -/
theorem C2_counterexample :
    ((deriveConfig autoMemConfig 199 [] []).map fun r => r.1.MemorySize) = some 5 ∧
      (5 : Int) ≠ min (199 * 5 / 100) maxMemorySize := by
  constructor
  · rfl
  · unfold maxMemorySize
    omega

/- ## C10: zero computed share keeps the raw memory size -/

/-- C10 (amended): the raw memory_size setting enters the configuration as
its megabyte value times 1048576; in adaptive sizing with strategy s ≥ 1,
when the computed share of total memory is zero the budget keeps the
raw-derived MemorySize — the computed value overrides it only when strictly
positive — but the 200 MiB cap is still applied to the kept value. -/
theorem C10_prop :
    (∀ (downloadPath libraryPath : String) (info : AddonInfo) (platform : XbmcPlatform)
      (language : String) (st : TypedSettings) (m : Int) (b : Configuration),
      getInt st "memory_size" = some m →
      buildConfig downloadPath libraryPath info platform language st = some b →
      b.MemorySize = m * 1048576) ∧
    (∀ (c : Configuration) (tm : Nat) (rpub ropen : List String)
      (c' : Configuration) (rp' ro' : List String) (s : Int),
      deriveConfig c tm rpub ropen = some (c', rp', ro') →
      c.DownloadStorage = 1 → c.AutoMemorySize = true →
      c.AutoMemorySizeStrategy = s → 1 ≤ s →
      tm % U64 / 100 * uint64OfInt (5 + 5 * (s - 1)) % U64 = 0 →
      c'.MemorySize = min c.MemorySize maxMemorySize) := by
  constructor
  · intro downloadPath libraryPath info platform language st m b hm hb
    unfold buildConfig at hb
    split at hb
    · injection hb with hb
      rw [← hb]
      show getIntD st "memory_size" * 1024 * 1024 = m * 1048576
      unfold getIntD
      rw [hm]
      show m * 1024 * 1024 = m * 1048576
      omega
    · cases hb
  · intro c tm rpub ropen c' rp' ro' s h h1 h2 hs hs1 hmem0
    have hm := (deriveConfig_mem_fields h).1
    have h3 : (c.AutoMemorySizeStrategy == 0) = false := by
      rw [hs]
      simp only [beq_eq_false_iff_ne]
      exact fun he => by rw [he] at hs1; exact absurd hs1 (by norm_num)
    have hmem :
        ¬ 0 < tm % U64 / 100 * uint64OfInt (5 + 5 * (c.AutoMemorySizeStrategy - 1)) % U64 := by
      rw [hs, hmem0]
      simp
    rw [hm, deriveStorage_MemorySize_zero h1 h2 h3 hmem]
    exact cap_min _

/-- Memory-backed storage, strategy 1, raw memory size 300 MiB. -/
def hugeMemConfig : Configuration :=
  { baseConfig with
    DownloadStorage := 1
    AutoMemorySize := true
    AutoMemorySizeStrategy := 1
    MemorySize := 314572800 }

/-- C10 witness: raw memory_size 0 enters as 0 bytes at construction; and
with 50 bytes of system memory (zero computed share) the 300 MiB raw value
is kept but capped to 200 MiB. -/
theorem C10_witness :
    (∃ b, buildConfig "/d" "/d" baseInfo basePlatform "en"
        (coerceAll (hostRawsWith "1" "false" "")) = some b ∧ b.MemorySize = 0 * 1048576) ∧
    (∃ c' rp' ro', deriveConfig hugeMemConfig 50 [] [] = some (c', rp', ro') ∧
      c'.MemorySize = min hugeMemConfig.MemorySize maxMemorySize) := by
  constructor
  · refine ⟨_, rfl, ?_⟩
    exact C10_prop.1 "/d" "/d" baseInfo basePlatform "en"
      (coerceAll (hostRawsWith "1" "false" "")) 0 _ (by decide) rfl
  · refine ⟨_, _, _, rfl, ?_⟩
    exact C10_prop.2 hugeMemConfig 50 [] [] _ _ _ 1 rfl rfl rfl rfl (by decide) (by decide)

/-- C10 counterexample: with a zero computed share the budget is not left at
the raw-derived value 300 MiB = 314572800: the 200 MiB cap still applies and
209715200 is published. -/
theorem C10_counterexample :
    ((deriveConfig hugeMemConfig 50 [] []).map fun r => r.1.MemorySize) = some 209715200 ∧
      (209715200 : Int) ≠ 314572800 :=
  ⟨rfl, by decide⟩

/- ## C4: no aborts after path validation -/

/-- C4 (amended): the coercion stage itself is total and never aborts, but
the construction stage performs an unchecked type assertion per required
key, so a missing or mistyped setting aborts the reload through the recover
path, as can an out-of-range proxy type during derivation; whenever every
required key is present with its expected dynamic type and the proxy type
is in range whenever the proxy URL is assembled, the reload runs to
completion and publishes a configuration. -/
theorem C4_prop (check : String → Option String) (downloadPath libraryPath : String)
    (info : AddonInfo) (platform : XbmcPlatform) (language : String)
    (raws : List Setting) (tm : Nat) (rpub ropen : List String)
    (d l : String) (b : Configuration)
    (hv : (validatePaths downloadPath libraryPath check).1 = .ok (d, l))
    (hb : buildConfig d l info platform language (coerceAll raws) = some b)
    (hp : b.ProxyEnabled = true → b.ProxyHost ≠ "" → 0 ≤ b.ProxyType ∧ b.ProxyType < 4) :
    ∃ out, Reload check downloadPath libraryPath info platform language raws tm rpub ropen =
      .ok out := by
  obtain ⟨-, -, -, -, -, oe, oh, ot, -, -, -⟩ :=
    deriveOSDB_fields (deriveTrakt (deriveStorage b tm))
  obtain ⟨-, -, -, -, -, te, th, tt, -, -, -⟩ := deriveTrakt_fields (deriveStorage b tm)
  obtain ⟨se, sh, st, -, -, -⟩ := deriveStorage_untouched b tm
  have hPE := oe.trans (te.trans se)
  have hPH := oh.trans (th.trans sh)
  have hPT := ot.trans (tt.trans st)
  have hproxy : ∃ c2, deriveProxy (deriveOSDB (deriveTrakt (deriveStorage b tm))) = some c2 := by
    unfold deriveProxy
    rw [hPE, hPH, hPT]
    by_cases hcond : (b.ProxyEnabled && b.ProxyHost != "") = true
    · rw [if_pos hcond]
      have he : b.ProxyEnabled = true := by
        cases hE : b.ProxyEnabled
        · rw [hE] at hcond
          simp at hcond
        · rfl
      have hh : b.ProxyHost ≠ "" := by
        intro hx
        rw [he, hx] at hcond
        simp at hcond
      obtain ⟨hlo, hhi⟩ := hp he hh
      obtain ⟨sch, hsch⟩ := goIndex_proxyTypes_of_lt hlo hhi
      rw [hsch]
      exact ⟨_, rfl⟩
    · rw [if_neg hcond]
      exact ⟨_, rfl⟩
  obtain ⟨c2, hc2⟩ := hproxy
  have hderive : deriveConfig b tm rpub ropen =
      some (deriveConnLimit (deriveDNS c2 rpub ropen).1,
        (deriveDNS c2 rpub ropen).2.1, (deriveDNS c2 rpub ropen).2.2) := by
    unfold deriveConfig
    rw [hc2]
  refine ⟨(deriveConnLimit (deriveDNS c2 rpub ropen).1, (deriveDNS c2 rpub ropen).2.1,
    (deriveDNS c2 rpub ropen).2.2), ?_⟩
  unfold Reload
  rw [hv]
  dsimp only
  rw [hb]
  dsimp only
  rw [hderive]

/-- C4 witness: a complete well-typed raw-settings sequence (proxy type 1)
reloads to completion and publishes. -/
theorem C4_witness :
    ∃ out, Reload (fun _ => none) "/d" "/lib" baseInfo basePlatform "en"
      (hostRawsWith "1" "true" "h") 0 [] [] = .ok out := by
  exact C4_prop (fun _ => none) "/d" "/lib" baseInfo basePlatform "en"
    (hostRawsWith "1" "true" "h") 0 [] [] "/d" "/lib" _ rfl rfl
    (fun _ _ => ⟨by decide, by decide⟩)

/-- C4 counterexample: path validation succeeds, yet a raw-settings
sequence containing only `download_storage` (all other required keys
missing) makes the reload abort instead of degrading the missing fields to
defaults: the construction type assertions panic. -/
theorem C4_counterexample :
    (validatePaths "/dl" "/dl2" (fun _ => none)).1 = .ok ("/dl", "/dl2") ∧
      Reload (fun _ => none) "/dl" "/dl2" baseInfo basePlatform "en"
        [⟨"download_storage", "enum", "1", ""⟩] 0 [] [] = .error .panicAbort :=
  ⟨rfl, rfl⟩

end Config
